import Mathlib

/-!
Verification development for the PerfectGym portal client
(custom_components/nrg_gyms/client.py).

The Python client is shallowly embedded: JSON values are an inductive type,
the HTTP layer is an oracle from requests to outcomes, and every public
fetch operation is a Lean function over that oracle.  Python exceptions are
modelled with `Except PyErr`: a sub-step that can raise returns `.error`,
and a `try/except` block in the source appears as an explicit match that
maps `.error` to the fallback result.  Machine-level concerns (the real
network, logging, cookie state) have no effect on any returned value and
are not modelled.
-/

namespace NrgGyms

/-- Exception kinds that the embedded Python code can raise.  Only the
distinction "some exception was raised" matters to the client, which
catches bare `Exception`; the constructors record the usual CPython
classes for readability. -/
inductive PyErr where
  | attributeError
  | typeError
  | valueError
  | jsonError
  | requestError
deriving DecidableEq, Repr

/-- JSON values as delivered by `resp.json()`.  Numbers are modelled as
integers (no claim depends on float payloads); objects are association
lists in insertion order, with lookup returning the first binding. -/
inductive JSON where
  | null
  | bool (b : Bool)
  | num (n : Int)
  | str (s : String)
  | arr (items : List JSON)
  | obj (fields : List (String × JSON))
deriving Repr

/-- Python truthiness for JSON values: `None`, `False`, `0`, `""`, `[]`
and the empty dict are falsy, everything else is truthy. -/
def truthy : JSON → Bool
  | .null => false
  | .bool b => b
  | .num n => n != 0
  | .str s => !s.isEmpty
  | .arr items => !items.isEmpty
  | .obj fields => !fields.isEmpty

/-- Python `a or b` on JSON values: `a` if truthy, else `b`. -/
def pyOr (a b : JSON) : JSON := if truthy a then a else b

/-- First binding of a key in an object's field list (`key in data` and
`data[key]` combined). -/
def lookupJ : List (String × JSON) → String → Option JSON
  | [], _ => none
  | (k, v) :: rest, key => if k = key then some v else lookupJ rest key

/-- Python `dict.get(key)`: the bound value, or `None` when absent. -/
def jget (fields : List (String × JSON)) (key : String) : JSON :=
  (lookupJ fields key).getD .null

/-- Python `value.get(key)` on an arbitrary value: raises
`AttributeError` unless the value is a dict. -/
def pyGetE : JSON → String → Except PyErr JSON
  | .obj fields, key => .ok (jget fields key)
  | _, _ => .error .attributeError

/-- Whether a JSON value is a dict (`isinstance(x, dict)`). -/
def JSON.isObj : JSON → Bool
  | .obj _ => true
  | _ => false

/-- Whether a JSON value is a string. -/
def JSON.isStr : JSON → Bool
  | .str _ => true
  | _ => false

mutual
/-- Python `repr` for JSON values, used by `str` on lists and dicts.  Only
its failure to look like an ISO date matters to any claim. -/
def pyRepr : JSON → String
  | .null => "None"
  | .bool true => "True"
  | .bool false => "False"
  | .num n => toString n
  | .str s => "\x27" ++ s ++ "\x27"
  | .arr items => "[" ++ String.intercalate ", " (pyReprList items) ++ "]"
  | .obj fields => "\x7b" ++ String.intercalate ", " (pyReprFields fields) ++ "\x7d"

/-- Helper of `pyRepr` for list elements. -/
def pyReprList : List JSON → List String
  | [] => []
  | j :: rest => pyRepr j :: pyReprList rest

/-- Helper of `pyRepr` for dict fields. -/
def pyReprFields : List (String × JSON) → List String
  | [] => []
  | (k, v) :: rest => ("\x27" ++ k ++ "\x27: " ++ pyRepr v) :: pyReprFields rest
end

/-- Python `str(value)` for JSON values. -/
def pyStr : JSON → String
  | .null => "None"
  | .bool true => "True"
  | .bool false => "False"
  | .num n => toString n
  | .str s => s
  | v => pyRepr v

/-- Numeric value of a decimal digit character. -/
def digitVal? (c : Char) : Option Nat :=
  if c.isDigit then some (c.toNat - 48) else none

/-- Accumulating decimal parser for a digit list (whole list must be
digits). -/
def parseNatAux : List Char → Nat → Option Nat
  | [], acc => some acc
  | c :: cs, acc =>
    match digitVal? c with
    | some d => parseNatAux cs (acc * 10 + d)
    | none => none

/-- Python `int(s)` on a string: optional surrounding whitespace, optional
sign, then decimal digits (digit-group underscores are not modelled). -/
def pyStrToInt (s : String) : Option Int :=
  let ws := fun c => c = ' ' ∨ c = '\t' ∨ c = '\n' ∨ c = '\r'
  let core := ((s.toList.dropWhile ws).reverse.dropWhile ws).reverse
  match core with
  | '-' :: rest =>
    if rest.isEmpty then none else (parseNatAux rest 0).map (fun n => -(n : Int))
  | '+' :: rest =>
    if rest.isEmpty then none else (parseNatAux rest 0).map (fun n => (n : Int))
  | rest =>
    if rest.isEmpty then none else (parseNatAux rest 0).map (fun n => (n : Int))

/-- Python `int(value)`: ints pass through, bools become 0/1, strings are
parsed, anything else raises (`none`). -/
def pyIntOpt : JSON → Option Int
  | .num n => some n
  | .bool b => some (if b then 1 else 0)
  | .str s => pyStrToInt s
  | _ => none

/-- Naive or timezone-aware Python datetime.  `tz` is the UTC offset in
minutes (`some 0` = UTC), `none` = naive. -/
structure PyDateTime where
  year : Int
  month : Nat
  day : Nat
  hour : Nat
  minute : Nat
  second : Nat
  micro : Nat
  tz : Option Int
deriving DecidableEq, Repr

/-- Proleptic-Gregorian civil date from a day count relative to 1970-01-01
(Howard Hinnant's algorithm, as used to model `datetime.fromtimestamp`). -/
def civilFromDays (z0 : Int) : Int × Nat × Nat :=
  let z := z0 + 719468
  let era := z.fdiv 146097
  let doe := (z - era * 146097).toNat
  let yoe := (doe - doe / 1460 + doe / 36524 - doe / 146096) / 365
  let y := (yoe : Int) + era * 400
  let doy := doe - (365 * yoe + yoe / 4 - yoe / 100)
  let mp := (5 * doy + 2) / 153
  let d := doy - (153 * mp + 2) / 5 + 1
  let m := if mp < 10 then mp + 3 else mp - 9
  (if m ≤ 2 then y + 1 else y, m, d)

/-- Day count relative to 1970-01-01 of a proleptic-Gregorian civil date. -/
def daysFromCivil (y : Int) (m d : Nat) : Int :=
  let y2 := if m ≤ 2 then y - 1 else y
  let era := y2.fdiv 400
  let yoe := (y2 - era * 400).toNat
  let mp := if m > 2 then m - 3 else m + 9
  let doy := (153 * mp + 2) / 5 + d - 1
  let doe := yoe * 365 + yoe / 4 - yoe / 100 + doy
  era * 146097 + (doe : Int) - 719468

/-- Gregorian leap-year test. -/
def isLeap (y : Int) : Bool := (y % 4 == 0 && y % 100 != 0) || y % 400 == 0

/-- Days in a month of a given year. -/
def daysInMonth (y : Int) (m : Nat) : Nat :=
  if m = 2 then (if isLeap y then 29 else 28)
  else if m = 4 ∨ m = 6 ∨ m = 9 ∨ m = 11 then 30 else 31

/-- Model of `datetime.fromtimestamp(secs, tz=timezone.utc)` with an extra
microsecond component: `none` when the resulting year falls outside
CPython's supported range 1..9999 (the source catches that error). -/
def fromtimestampUtc (secs : Int) (micro : Nat) : Option PyDateTime :=
  let days := secs.fdiv 86400
  let rem := (secs - days * 86400).toNat
  match civilFromDays days with
  | (y, m, d) =>
    if 1 ≤ y ∧ y ≤ 9999 then
      some ⟨y, m, d, rem / 3600, (rem / 60) % 60, rem % 60, micro, some 0⟩
    else none

/-- The client's epoch-seconds interpretation
(`datetime.fromtimestamp(val, tz=timezone.utc)`). -/
def fromtimestamp_sec (v : Int) : Option PyDateTime := fromtimestampUtc v 0

/-- The client's epoch-milliseconds interpretation
(`datetime.fromtimestamp(val / 1000, tz=timezone.utc)`; the float rounding
of astronomically large quotients is not modelled). -/
def fromtimestamp_ms (v : Int) : Option PyDateTime :=
  fromtimestampUtc (v.fdiv 1000) ((v.fmod 1000).toNat * 1000)

/-- Left-pad a natural number to two digits. -/
def pad2 (n : Nat) : String := if n < 10 then "0" ++ toString n else toString n

/-- Left-pad a year to four digits. -/
def pad4 (y : Int) : String :=
  if y < 0 then toString y
  else
    let s := toString y
    if s.length ≥ 4 then s else String.mk (List.replicate (4 - s.length) '0') ++ s

/-- Left-pad a microsecond count to six digits. -/
def pad6 (n : Nat) : String :=
  let s := toString n
  String.mk (List.replicate (6 - s.length) '0') ++ s

/-- UTC-offset suffix of `datetime.isoformat`. -/
def tzSuffix : Option Int → String
  | none => ""
  | some off =>
    if off < 0 then "-" ++ pad2 ((-off).toNat / 60) ++ ":" ++ pad2 ((-off).toNat % 60)
    else "+" ++ pad2 (off.toNat / 60) ++ ":" ++ pad2 (off.toNat % 60)

/-- Model of `datetime.isoformat()`. -/
def PyDateTime.isoformat (dt : PyDateTime) : String :=
  pad4 dt.year ++ "-" ++ pad2 dt.month ++ "-" ++ pad2 dt.day ++ "T" ++
    pad2 dt.hour ++ ":" ++ pad2 dt.minute ++ ":" ++ pad2 dt.second ++
    (if dt.micro = 0 then "" else "." ++ pad6 dt.micro) ++ tzSuffix dt.tz

/-- Model of `datetime.date().isoformat()`. -/
def PyDateTime.dateIso (dt : PyDateTime) : String :=
  pad4 dt.year ++ "-" ++ pad2 dt.month ++ "-" ++ pad2 dt.day

/-- Model of `dt + timedelta(days=n)`. -/
def PyDateTime.addDays (dt : PyDateTime) (n : Int) : PyDateTime :=
  match civilFromDays (daysFromCivil dt.year dt.month dt.day + n) with
  | (y, m, d) => { dt with year := y, month := m, day := d }

/-- Read exactly `n` decimal digits from the front of a char list. -/
def readNAux : Nat → List Char → Nat → Option (Nat × List Char)
  | 0, cs, acc => some (acc, cs)
  | n + 1, c :: cs, acc =>
    match digitVal? c with
    | some d => readNAux n cs (acc * 10 + d)
    | none => none
  | _ + 1, [], _ => none

/-- Take a maximal run of decimal digits from the front of a char list. -/
def takeDigitsAll : List Char → List Nat × List Char
  | [] => ([], [])
  | c :: cs =>
    match digitVal? c with
    | some d =>
      match takeDigitsAll cs with
      | (ds, r) => (d :: ds, r)
    | none => ([], c :: cs)

/-- Microseconds denoted by a fractional-second digit run (truncated or
zero-extended to six digits, as CPython does). -/
def microOf (ds : List Nat) : Nat :=
  ((ds ++ List.replicate 6 0).take 6).foldl (fun a d => a * 10 + d) 0

/-- Calendar-validity check used by the ISO parser. -/
def validDate (y m d : Nat) : Bool :=
  1 ≤ y && 1 ≤ m && m ≤ 12 && 1 ≤ d && d ≤ daysInMonth (y : Int) m

/-- Date part of `datetime.fromisoformat` (CPython 3.11+): extended
`YYYY-MM-DD` or basic `YYYYMMDD`, calendar-validated. -/
def parseIsoDate (cs : List Char) : Option (Nat × Nat × Nat × List Char) :=
  match readNAux 4 cs 0 with
  | none => none
  | some (y, rest) =>
    match rest with
    | '-' :: r2 =>
      match readNAux 2 r2 0 with
      | some (m, '-' :: r3) =>
        match readNAux 2 r3 0 with
        | some (d, r4) => if validDate y m d then some (y, m, d, r4) else none
        | none => none
      | _ => none
    | _ =>
      match readNAux 4 rest 0 with
      | some (md, r4) =>
        let m := md / 100
        let d := md % 100
        if validDate y m d then some (y, m, d, r4) else none
      | none => none

/-- Fractional-second suffix (after `.` or `,`): at least one digit. -/
def parseIsoFrac (cs : List Char) : Option (Nat × List Char) :=
  match takeDigitsAll cs with
  | ([], _) => none
  | (ds, r) => some (microOf ds, r)

/-- Time part of `datetime.fromisoformat`: `HH`, `HH:MM[:SS[.f+]]` or basic
`HHMM[SS[.f+]]`. -/
def parseIsoTime (cs : List Char) : Option (Nat × Nat × Nat × Nat × List Char) :=
  match readNAux 2 cs 0 with
  | none => none
  | some (h, rest) =>
    match rest with
    | ':' :: r2 =>
      match readNAux 2 r2 0 with
      | none => none
      | some (m, r3) =>
        match r3 with
        | ':' :: r4 =>
          match readNAux 2 r4 0 with
          | none => none
          | some (s, r5) =>
            match r5 with
            | '.' :: r6 =>
              match parseIsoFrac r6 with
              | some (mic, r7) => some (h, m, s, mic, r7)
              | none => none
            | ',' :: r6 =>
              match parseIsoFrac r6 with
              | some (mic, r7) => some (h, m, s, mic, r7)
              | none => none
            | _ => some (h, m, s, 0, r5)
        | _ => some (h, m, 0, 0, r3)
    | _ =>
      match readNAux 2 rest 0 with
      | none => some (h, 0, 0, 0, rest)
      | some (m, r3) =>
        match readNAux 2 r3 0 with
        | none => some (h, m, 0, 0, r3)
        | some (s, r5) =>
          match r5 with
          | '.' :: r6 =>
            match parseIsoFrac r6 with
            | some (mic, r7) => some (h, m, s, mic, r7)
            | none => none
          | ',' :: r6 =>
            match parseIsoFrac r6 with
            | some (mic, r7) => some (h, m, s, mic, r7)
            | none => none
          | _ => some (h, m, s, 0, r5)

/-- UTC-offset part of `datetime.fromisoformat`: optional `±HH[:MM]` or
`±HHMM` (offset seconds are not modelled); result in minutes. -/
def parseIsoOffset (cs : List Char) : Option (Option Int × List Char) :=
  match cs with
  | [] => some (none, [])
  | '+' :: r =>
    match readNAux 2 r 0 with
    | none => none
    | some (hh, r2) =>
      match r2 with
      | ':' :: r3 =>
        match readNAux 2 r3 0 with
        | some (mm, r4) => some (some ((hh * 60 + mm : Nat) : Int), r4)
        | none => none
      | _ =>
        match readNAux 2 r2 0 with
        | some (mm, r4) => some (some ((hh * 60 + mm : Nat) : Int), r4)
        | none => some (some ((hh * 60 : Nat) : Int), r2)
  | '-' :: r =>
    match readNAux 2 r 0 with
    | none => none
    | some (hh, r2) =>
      match r2 with
      | ':' :: r3 =>
        match readNAux 2 r3 0 with
        | some (mm, r4) => some (some (-((hh * 60 + mm : Nat) : Int)), r4)
        | none => none
      | _ =>
        match readNAux 2 r2 0 with
        | some (mm, r4) => some (some (-((hh * 60 + mm : Nat) : Int)), r4)
        | none => some (some (-((hh * 60 : Nat) : Int)), r2)
  | _ => none

/-- Model of CPython 3.11+ `datetime.fromisoformat` on the grammar the
portal emits: a date (`YYYY-MM-DD` or `YYYYMMDD`), optionally followed by
a single separator character (CPython skips it unchecked), a time, and a
UTC offset.  Week/ordinal dates and sub-minute offsets are not modelled. -/
def isoParse (s : String) : Option PyDateTime :=
  match parseIsoDate s.toList with
  | none => none
  | some (y, mo, d, rest) =>
    match rest with
    | [] => some ⟨(y : Int), mo, d, 0, 0, 0, 0, none⟩
    | _sep :: tcs =>
      match parseIsoTime tcs with
      | none => none
      | some (hh, mi, ss, mic, r2) =>
        if hh ≤ 23 && mi ≤ 59 && ss ≤ 59 then
          match parseIsoOffset r2 with
          | some (tz, []) => some ⟨(y : Int), mo, d, hh, mi, ss, mic, tz⟩
          | _ => none
        else none

/-- Character-level model of `.replace("Z", "+00:00")`. -/
def replaceZChars : List Char → List Char
  | [] => []
  | c :: rest =>
    if c = 'Z' then '+' :: '0' :: '0' :: ':' :: '0' :: '0' :: replaceZChars rest
    else c :: replaceZChars rest

/-- Model of Python `s.replace("Z", "+00:00")`. -/
def pyReplaceZ (s : String) : String := String.mk (replaceZChars s.toList)

/-- Model of `PerfectGymClient._parse_dt`: falsy values short-circuit to
`None`; then an ISO-8601 attempt on `str(value)` with `"Z"` rewritten to
`"+00:00"` and naive results promoted to UTC; then an epoch attempt with
the magnitude heuristic (`> 10_000_000_000` means milliseconds). -/
def parse_dt (value : JSON) : Option PyDateTime :=
  if truthy value = false then none
  else
    match isoParse (pyReplaceZ (pyStr value)) with
    | some dt => some (if dt.tz.isNone then { dt with tz := some 0 } else dt)
    | none =>
      match pyIntOpt value with
      | some v => if v > 10000000000 then fromtimestamp_ms v else fromtimestamp_sec v
      | none => none

/-- Prefix test on char lists (used by the substring test below). -/
def isPre : List Char → List Char → Bool
  | [], _ => true
  | _ :: _, [] => false
  | a :: as, b :: bs => a == b && isPre as bs

/-- Substring occurrence on char lists. -/
def containsSub : List Char → List Char → Bool
  | [], needle => isPre needle []
  | c :: t, needle => isPre needle (c :: t) || containsSub t needle

/-- Python `needle in hay` on strings. -/
def strIn (needle hay : String) : Bool := containsSub hay.toList needle.toList

/-- The container keys probed on a dict payload, in source order
(`"Bookings", "Items", "Data", "Result", "results"`). -/
def KNOWN_LIST_KEYS : List String := ["Bookings", "Items", "Data", "Result", "results"]

/-- The keys that make a dict payload look like a single booking record
(`"Start", "StartDate", "StartTime"`). -/
def RECORD_MARKER_KEYS : List String := ["Start", "StartDate", "StartTime"]

/-- First key of the given list bound to a list value in the fields
(the `for key in (...)` loop of `_try_endpoint`). -/
def firstListKey (fields : List (String × JSON)) : List String → Option (List JSON)
  | [] => none
  | k :: ks =>
    match lookupJ fields k with
    | some (.arr xs) => some xs
    | _ => firstListKey fields ks

/-- Items of one named calendar section: the section must be a dict whose
`"Items"` key holds a list, else it contributes nothing. -/
def sectionItems (fields : List (String × JSON)) (name : String) : List JSON :=
  match lookupJ fields name with
  | some (.obj sec) =>
    match lookupJ sec "Items" with
    | some (.arr xs) => xs
    | _ => []
  | _ => []

/-- Shape normalizer of `_try_endpoint` (client.py lines 93-112): for a
dict, the known list-valued keys in priority order, then the fixed
`RecentItems`/`FutureItems`/`PastItems` sections, then the single-record
wrap; a list is returned as-is; anything else yields nothing. -/
def extractItems : JSON → Option (List JSON)
  | .obj fields =>
    match firstListKey fields KNOWN_LIST_KEYS with
    | some xs => some xs
    | none =>
      let items := sectionItems fields "RecentItems" ++
        sectionItems fields "FutureItems" ++ sectionItems fields "PastItems"
      if !items.isEmpty then some items
      else if RECORD_MARKER_KEYS.any (fun k => (lookupJ fields k).isSome) then some [.obj fields]
      else none
  | .arr xs => some xs
  | _ => none

/-- Shape normalizer as claim C5 words it: step (3) concatenates the item
lists of ALL named sections (any key whose value is a dict with a
list-valued `Items`) in section-declaration order. -/
def extractItemsClaim : JSON → Option (List JSON)
  | .arr xs => some xs
  | .obj fields =>
    match firstListKey fields KNOWN_LIST_KEYS with
    | some xs => some xs
    | none =>
      let sections := fields.filterMap (fun kv =>
        match kv.2 with
        | .obj sec =>
          match lookupJ sec "Items" with
          | some (.arr xs) => some xs
          | _ => none
        | _ => none)
      if !sections.isEmpty then some sections.flatten
      else if RECORD_MARKER_KEYS.any (fun k => (lookupJ fields k).isSome) then some [.obj fields]
      else none
  | _ => none

/-- Shape normalizer as the amended claim words it: step (3) uses the
fixed section keys `RecentItems`, `FutureItems`, `PastItems`, in that
fixed order, and applies only when the concatenation is non-empty. -/
def extractItemsAmended : JSON → Option (List JSON)
  | .arr xs => some xs
  | .obj fields =>
    match firstListKey fields KNOWN_LIST_KEYS with
    | some xs => some xs
    | none =>
      let items := (["RecentItems", "FutureItems", "PastItems"].map (sectionItems fields)).flatten
      if !items.isEmpty then some items
      else if RECORD_MARKER_KEYS.any (fun k => (lookupJ fields k).isSome) then some [.obj fields]
      else none
  | _ => none

/-- Normalized booking record (the dict built by `_normalize_booking`).
`summary` and `location` hold whatever JSON value the priority chain
selected; `start`/`end_` are parsed instants; `description` is the
assembled sub-fact string or absent. -/
structure Booking where
  summary : JSON
  start : Option PyDateTime
  end_ : Option PyDateTime
  location : JSON
  description : Option String
deriving Repr

/-- Field mapping of `_normalize_booking` on a dict (client.py lines
187-224). -/
def normalize_booking_obj (fields : List (String × JSON)) : Booking :=
  let title := pyOr (jget fields "Title") (pyOr (jget fields "ClassName")
    (pyOr (jget fields "Name") (.str "Booking")))
  let start := parse_dt (pyOr (jget fields "StartTimeUtc") (pyOr (jget fields "StartTime")
    (pyOr (jget fields "Start") (jget fields "StartDate"))))
  let end_ := parse_dt (pyOr (jget fields "EndTime") (pyOr (jget fields "End")
    (jget fields "EndDate")))
  let location := pyOr (jget fields "Club") (pyOr (jget fields "Zone")
    (pyOr (jget fields "Location") (jget fields "ClubName")))
  let coach := pyOr (jget fields "TrainerDisplayName") (pyOr (jget fields "Coach")
    (jget fields "Instructor"))
  let parts :=
    (if truthy coach then ["Coach: " ++ pyStr coach] else []) ++
    (if truthy (jget fields "Status") then ["Status: " ++ pyStr (jget fields "Status")] else []) ++
    (if truthy (jget fields "Type") then ["Type: " ++ pyStr (jget fields "Type")] else []) ++
    (if truthy (jget fields "ClassBookingId") then
       ["ClassBookingId: " ++ pyStr (jget fields "ClassBookingId")]
     else if truthy (jget fields "BookingId") then
       ["BookingId: " ++ pyStr (jget fields "BookingId")]
     else [])
  { summary := title, start := start, end_ := end_, location := location,
    description := if parts.isEmpty then none else some (String.intercalate "; " parts) }

/-- Model of `self._normalize_booking(b)`: `b.get(...)` raises
`AttributeError` unless `b` is a dict. -/
def normalize_booking : JSON → Except PyErr Booking
  | .obj fields => .ok (normalize_booking_obj fields)
  | _ => .error .attributeError

/-- The list comprehension `[self._normalize_booking(b) for b in
bookings]`: items normalized left to right, the first exception
propagating. -/
def mapNormalize : List JSON → Except PyErr (List Booking)
  | [] => .ok []
  | j :: rest => do
    let b ← normalize_booking j
    let bs ← mapNormalize rest
    return b :: bs

/-- The per-batch normalization of `fetch_upcoming_bookings` (lines
142-143 and 149-151): map `_normalize_booking` over the batch, then drop
entries with no start. -/
def normalizeBatch (items : List JSON) : Except PyErr (List Booking) :=
  (mapNormalize items).map (fun bs => bs.filter (fun b => b.start.isSome))

/-- HTTP method of a request. -/
inductive Method where
  | get
  | post
deriving DecidableEq, Repr

/-- One outgoing HTTP request: method, absolute URL, the per-call extra
headers (the constant session headers are not repeated here), and the
JSON body when one is sent. -/
structure Request where
  method : Method
  url : String
  headers : List (String × String)
  body : Option JSON
deriving Repr

/-- Outcome of one HTTP request: a transport-level exception
(connection error / timeout), or a response with a status code and
either a parsed JSON body or `none` when `resp.json()` raises. -/
inductive HttpOutcome where
  | exn
  | resp (status : Nat) (body : Option JSON)

/-- The remote portal, as an oracle from requests to outcomes. -/
def Net := Request → HttpOutcome

/-- Portal origin (client.py line 13). -/
def BASE_URL : String := "https://nrggym.perfectgym.com"

/-- Occupancy endpoint path. -/
def OCCUPANCY_PATH : String := "/clientportal2/Clubs/Clubs/GetMembersInClubs"

/-- Identity endpoint path. -/
def IDENTITY_PATH : String := "/clientportal2/Auth/Login/Identity"

/-- Products endpoint path. -/
def PRODUCTS_PATH : String := "/clientportal2/Products/ChooseProducts/GetProductsForUser"

/-- Contracts endpoint path. -/
def CONTRACTS_PATH : String := "/clientportal2/Profile/Contracts/ContractList"

/-- Profile endpoint path. -/
def PROFILE_PATH : String := "/clientportal2/Profile/Profile/GetProfileForEdit"

/-- Candidate endpoints for upcoming bookings, tried in order. -/
def BOOKINGS_CANDIDATE_PATHS : List String :=
  [ "/clientportal2/MyCalendar/MyCalendar/GetCalendar",
    "/clientportal2/Booking/GetUpcomingBookings",
    "/clientportal2/Booking/GetFutureBookings",
    "/clientportal2/Bookings/GetUpcoming",
    "/clientportal2/ClassBooking/GetUpcoming",
    "/clientportal2/Calendar/GetMyBookings" ]

/-- Client construction arguments that influence the fetch operations. -/
structure ClientCfg where
  bookings_path_override : Option String
  club_id : Option Int

/-- The GET request issued by `_try_endpoint` for a path and its extra
headers. -/
def probeReq (path : String) (extraHeaders : List (String × String)) : Request :=
  ⟨.get, BASE_URL ++ path, extraHeaders, none⟩

/-- Model of `_try_endpoint` (lines 83-115): one GET; every non-200
status, transport error, JSON-decode error or unrecognized shape
collapses to `none`. -/
def try_endpoint (net : Net) (path : String) (extraHeaders : List (String × String)) :
    Option (List JSON) :=
  match net (probeReq path extraHeaders) with
  | .exn => none
  | .resp status body =>
    if status ≠ 200 then none
    else
      match body with
      | none => none
      | some data => extractItems data

/-- The `X-Hash` header value for the MyCalendar endpoint: club id from
the config (`self._club_id or 5`, so an absent or zero id falls back to
5) and the current date. -/
def bookingsXHash (cfg : ClientCfg) (now : PyDateTime) : String :=
  let clubId : Int := match cfg.club_id with
    | some c => if c ≠ 0 then c else 5
    | none => 5
  "#/Classes/" ++ toString clubId ++ "/Calendar?date=" ++ now.dateIso

/-- The date-ranged query variant of a path (`?start=now&end=now+30d`). -/
def rangedPath (path : String) (now horizon : PyDateTime) : String :=
  path ++ "?start=" ++ now.isoformat ++ "&end=" ++ horizon.isoformat

/-- ASCII lower-casing of one character (the endpoint paths are ASCII). -/
def charLower (c : Char) : Char :=
  if 'A' ≤ c ∧ c ≤ 'Z' then Char.ofNat (c.toNat + 32) else c

/-- Model of Python `s.lower()` on the ASCII endpoint paths. -/
def pyLower (s : String) : String := String.mk (s.toList.map charLower)

/-- Whether a path gets the ranged variant first
(`any(key in path.lower() for key in ("calendar", "schedule"))`). -/
def calendarish (path : String) : Bool :=
  strIn "calendar" (pyLower path) || strIn "schedule" (pyLower path)

/-- The unranged probe of one candidate (lines 147-153): on a truthy
batch, normalize and stop; otherwise fall through to `recResult`, the
outcome of the remaining candidates.  `pre` carries requests already
issued for this candidate. -/
def plain_step (net : Net) (path : String) (extraHeaders : List (String × String))
    (recResult : Except PyErr (List Booking) × List Request) (pre : List Request) :
    Except PyErr (List Booking) × List Request :=
  let req := probeReq path extraHeaders
  match try_endpoint net path extraHeaders with
  | some items =>
    if items.isEmpty then (recResult.1, pre ++ req :: recResult.2)
    else (normalizeBatch items, pre ++ [req])
  | none => (recResult.1, pre ++ req :: recResult.2)

/-- The candidate loop of `fetch_upcoming_bookings` (lines 128-157).
Returns the result together with the ordered trace of issued requests.
For a calendar-like path the ranged variant is tried before the plain
one; a truthy batch is normalized and returned; everything else falls
through to the next candidate; exhaustion yields the empty list. -/
def bookings_from_paths (net : Net) (cfg : ClientCfg) (now horizon : PyDateTime) :
    List String → Except PyErr (List Booking) × List Request
  | [] => (.ok [], [])
  | path :: rest =>
    let recResult := bookings_from_paths net cfg now horizon rest
    let extraHeaders :=
      if strIn "/MyCalendar/MyCalendar/GetCalendar" path then
        [("X-Hash", bookingsXHash cfg now)]
      else []
    if calendarish path then
      match try_endpoint net (rangedPath path now horizon) extraHeaders with
      | some items =>
        if items.isEmpty then
          plain_step net path extraHeaders recResult [probeReq (rangedPath path now horizon) extraHeaders]
        else (normalizeBatch items, [probeReq (rangedPath path now horizon) extraHeaders])
      | none =>
        plain_step net path extraHeaders recResult [probeReq (rangedPath path now horizon) extraHeaders]
    else plain_step net path extraHeaders recResult []

/-- Model of `fetch_upcoming_bookings` (lines 117-157): a truthy
`bookings_path_override` is probed ahead of the built-in candidates;
`now` stands for `datetime.utcnow()` and the horizon is `now` plus 30
days.  The `Except` layer records that the normalization calls sit
outside any `try` block, so their exceptions escape to the caller. -/
def overridePaths : Option String → List String
  | some p => if p.isEmpty then [] else [p]
  | none => []

def fetch_upcoming_bookings (cfg : ClientCfg) (now : PyDateTime) (net : Net) :
    Except PyErr (List Booking) × List Request :=
  bookings_from_paths net cfg now (now.addDays 30)
    (overridePaths cfg.bookings_path_override ++ BOOKINGS_CANDIDATE_PATHS)

/-- Python iteration `for c in value`: lists yield their items, strings
their characters, dicts their keys; other values raise `TypeError`. -/
def pyIter : JSON → Except PyErr (List JSON)
  | .arr items => .ok items
  | .str s => .ok (s.toList.map (fun c => .str (String.singleton c)))
  | .obj fields => .ok (fields.map (fun kv => .str kv.1))
  | _ => .error .typeError

/-- One entry of the occupancy report. -/
structure ClubEntry where
  name : JSON
  members : Int
  id : JSON
deriving Repr

/-- The occupancy report (`{"clubs": [...], "total": n}`). -/
structure OccReport where
  clubs : List ClubEntry
  total : Int
deriving Repr

/-- The occupancy request (POST with empty body and the
`#/Clubs/MembersInClubs` view hash). -/
def occupancyReq : Request :=
  ⟨.post, BASE_URL ++ OCCUPANCY_PATH, [("X-Hash", "#/Clubs/MembersInClubs")], none⟩

/-- Raw club list selection of `fetch_members_in_clubs` (lines 247-259):
`UsersInClubList` when list-valued, overridden by the first known
list-valued key, then the `"0"`-keyed dict fallback taking all values;
a list payload is used as-is; other payloads give the empty list. -/
def clubsRawFrom : JSON → List JSON
  | .obj fields =>
    let c1 : List JSON :=
      match lookupJ fields "UsersInClubList" with
      | some (.arr xs) => xs
      | _ => []
    let c2 : List JSON :=
      match firstListKey fields ["Clubs", "Items", "Data", "Result", "results"] with
      | some xs => xs
      | none => c1
    if c2.isEmpty then
      match lookupJ fields "0" with
      | some (.obj _) => fields.map (fun kv => kv.2)
      | _ => c2
    else c2
  | .arr xs => xs
  | _ => []

/-- One club entry (lines 262-280): name and id from priority chains; the
count chain parsed with `int`, any parse failure or `None` counting as
zero.  A non-dict entry raises `AttributeError` (caught by the caller's
`except`, aborting the whole report). -/
def occEntry : JSON → Except PyErr ClubEntry
  | .obj fields =>
    let name := pyOr (jget fields "ClubName") (pyOr (jget fields "Name")
      (pyOr (jget fields "Club") (pyOr (jget fields "name") (.str "Club"))))
    let count0 := pyOr (jget fields "UsersCountCurrentlyInClub")
      (pyOr (jget fields "MembersInClubCount") (pyOr (jget fields "Count")
        (pyOr (jget fields "members") (jget fields "value"))))
    let count : Int :=
      match count0 with
      | .null => 0
      | v => (pyIntOpt v).getD 0
    .ok ⟨name, count, pyOr (jget fields "ClubId") (pyOr (jget fields "Id") (jget fields "id"))⟩
  | _ => .error .attributeError

/-- The accumulation loop over the raw club list: entries in order, total
incremented by each entry's count. -/
def occFold : List JSON → Except PyErr (List ClubEntry × Int)
  | [] => .ok ([], 0)
  | c :: rest => do
    let e ← occEntry c
    let (l, t) ← occFold rest
    return (e :: l, t + e.members)

/-- The `try` block of `fetch_members_in_clubs` (lines 239-282). -/
def fetch_members_in_clubs_body (net : Net) : Except PyErr OccReport :=
  match net occupancyReq with
  | .exn => .error .requestError
  | .resp status body =>
    if status ≠ 200 then .ok ⟨[], 0⟩
    else
      match body with
      | none => .error .jsonError
      | some data => do
        let (clubs, total) ← occFold (clubsRawFrom data)
        return ⟨clubs, total⟩

/-- Model of `fetch_members_in_clubs` (lines 234-285): the whole body sits
in a `try` whose `except` returns the zeroed report, so no exception
escapes. -/
def fetch_members_in_clubs (net : Net) : Except PyErr OccReport :=
  match fetch_members_in_clubs_body net with
  | .ok r => .ok r
  | .error _ => .ok ⟨[], 0⟩

/-- The normalized identity record (the 8-key dict built by
`fetch_identity`). -/
structure Identity where
  user_id : JSON
  first_name : JSON
  last_name : JSON
  email : JSON
  home_club_id : JSON
  default_club_id : JSON
  type_ : JSON
  photo_url : JSON
deriving Repr

/-- The identity request (POST with empty body, no extra headers). -/
def identityReq : Request := ⟨.post, BASE_URL ++ IDENTITY_PATH, [], none⟩

/-- The `try` block of `fetch_identity` (lines 337-354): `none` stands for
the empty-dict failure result. -/
def fetch_identity_body (net : Net) : Except PyErr (Option Identity) :=
  match net identityReq with
  | .exn => .error .requestError
  | .resp status body =>
    if status ≠ 200 then .ok none
    else
      match body with
      | none => .error .jsonError
      | some data => do
        let d := pyOr data (.obj [])
        let m0 ← pyGetE d "Member"
        let member := pyOr m0 (.obj [])
        let uid ← pyGetE member "Id"
        let fn ← pyGetE member "FirstName"
        let ln ← pyGetE member "LastName"
        let em ← pyGetE member "Email"
        let hc ← pyGetE member "HomeClubId"
        let dc ← pyGetE member "DefaultClubId"
        let ty ← pyGetE member "Type"
        let pu ← pyGetE member "PhotoUrl"
        return some ⟨uid, fn, ln, em, hc, dc, ty, pu⟩

/-- Model of `fetch_identity` (lines 333-357), with its request trace
(the one POST is issued in every run of the body). -/
def fetch_identity (net : Net) : Except PyErr (Option Identity) × List Request :=
  (match fetch_identity_body net with
   | .ok r => .ok r
   | .error _ => .ok none,
   [identityReq])

/-- The products request (plain GET). -/
def productsReq : Request := ⟨.get, BASE_URL ++ PRODUCTS_PATH, [], none⟩

/-- The `try` block of `fetch_products_for_user` (lines 415-422): `some v`
stands for `{"club_name": v}`, `none` for the empty-dict failure. -/
def fetch_products_for_user_body (net : Net) : Except PyErr (Option JSON) :=
  match net productsReq with
  | .exn => .error .requestError
  | .resp status body =>
    if status ≠ 200 then .ok none
    else
      match body with
      | none => .error .jsonError
      | some data => do
        let d := pyOr data (.obj [])
        let cn ← pyGetE d "ClubName"
        return some cn

/-- Model of `fetch_products_for_user` (lines 411-425). -/
def fetch_products_for_user (net : Net) : Except PyErr (Option JSON) :=
  match fetch_products_for_user_body net with
  | .ok r => .ok r
  | .error _ => .ok none

/-- The normalized profile record (`none` in `club_name` means the key
was not added). -/
structure Profile where
  user_id : JSON
  first_name : JSON
  last_name : JSON
  email : JSON
  phone : JSON
  referral_code : JSON
  full_name : JSON
  photo_url : JSON
  club_name : Option JSON
deriving Repr

/-- The profile request when a truthy user id is available: view hash and
JSON body both carry the id. -/
def profileReqWithId (u : Int) : Request :=
  ⟨.post, BASE_URL ++ PROFILE_PATH,
    [("X-Hash", "#/Profile/Edit?userId=" ++ toString u)],
    some (.obj [("userId", .num u)])⟩

/-- The profile request without a user id (empty body, minimal headers). -/
def profileReqNoId : Request := ⟨.post, BASE_URL ++ PROFILE_PATH, [], none⟩

/-- Python `" ".join(xs)` where every element must be a string, else
`TypeError`. -/
def pyJoinSpace (xs : List JSON) : Except PyErr String := do
  let strs ← xs.mapM (fun v =>
    match v with
    | .str s => (.ok s : Except PyErr String)
    | _ => .error .typeError)
  return String.intercalate " " strs

/-- The `try` block of `fetch_profile` (lines 290-328): `none` stands for
the empty-dict failure result.  The enrichment call to
`fetch_products_for_user` happens inside this `try`. -/
def fetch_profile_body (net : Net) (user_id : Option Int) : Except PyErr (Option Profile) :=
  let outcome :=
    match user_id with
    | some u => if u ≠ 0 then net (profileReqWithId u) else net profileReqNoId
    | none => net profileReqNoId
  match outcome with
  | .exn => .error .requestError
  | .resp status body =>
    if status ≠ 200 then .ok none
    else
      match body with
      | none => .error .jsonError
      | some data => do
        let m0 ← pyGetE data "Model"
        let model := pyOr m0 (.obj [])
        let pd0 ← pyGetE model "PersonalData"
        let pd := pyOr pd0 (.obj [])
        let ph0 ← pyGetE pd "Phone"
        let phone := pyOr ph0 (.obj [])
        let fn ← pyGetE pd "FirstName"
        let ln ← pyGetE pd "LastName"
        let name ← pyJoinSpace ([fn, ln].filter (fun x => truthy x))
        let uidJ ← pyGetE model "UserId"
        let em ← pyGetE pd "Email"
        let pn ← pyGetE phone "PhoneNumber"
        let rc ← pyGetE pd "ReferralCode"
        let photo0 ← pyGetE pd "Photo"
        let purl ← pyGetE (pyOr photo0 (.obj [])) "Url"
        let prod ← fetch_products_for_user net
        let clubName :=
          match prod with
          | some v => if truthy v then some v else none
          | none => none
        return some
          { user_id := pyOr uidJ (match user_id with | some u => .num u | none => .null),
            first_name := fn, last_name := ln, email := em, phone := pn,
            referral_code := rc,
            full_name := if name.isEmpty then .null else .str name,
            photo_url := purl, club_name := clubName }

/-- Model of `fetch_profile` (lines 287-331). -/
def fetch_profile (net : Net) (user_id : Option Int) : Except PyErr (Option Profile) :=
  match fetch_profile_body net user_id with
  | .ok r => .ok r
  | .error _ => .ok none

/-- One normalized contract record (lines 386-402). -/
structure Contract where
  id : JSON
  name : JSON
  addons : JSON
  club_id : JSON
  club_name : JSON
  start_date : Option PyDateTime
  end_date : Option PyDateTime
  commitment_date : Option PyDateTime
  next_payment_date : Option PyDateTime
  payment_interval : JSON
  commitment_period : JSON
  cost_gross : JSON
  cost_net : JSON
  cost_tax : JSON
  short_description : JSON
deriving Repr

/-- The contracts report (`{"contracts": [...], "active": ...}`). -/
structure ContractsReport where
  contracts : List Contract
  active : Option Contract
deriving Repr

/-- The contracts request: view hash plus the user id in the JSON body. -/
def contractsReq (uid : JSON) : Request :=
  ⟨.post, BASE_URL ++ CONTRACTS_PATH, [("X-Hash", "#/Profile/Contract")],
    some (.obj [("userId", uid)])⟩

/-- Mapping of one raw contract (lines 383-403); a non-dict item raises. -/
def contractItem : JSON → Except PyErr Contract
  | .obj fields => do
    let club := pyOr (jget fields "Club") (.obj [])
    let cost := pyOr (jget fields "Cost") (.obj [])
    let clubId ← pyGetE club "Id"
    let clubName ← pyGetE club "Name"
    let g ← pyGetE cost "Gross"
    let n ← pyGetE cost "Net"
    let t ← pyGetE cost "Tax"
    return {
        id := jget fields "Id", name := jget fields "Name",
        addons := pyOr (jget fields "AddonsNames") (.arr []),
        club_id := clubId, club_name := clubName,
        start_date := parse_dt (jget fields "StartDate"),
        end_date := parse_dt (jget fields "EndDate"),
        commitment_date := parse_dt (jget fields "CommitmentDate"),
        next_payment_date := parse_dt (jget fields "NextPaymentDate"),
        payment_interval := jget fields "PaymentInterval",
        commitment_period := jget fields "CommitmentPeriod",
        cost_gross := g, cost_net := n, cost_tax := t,
        short_description := jget fields "ShortDescription" }
  | _ => .error .attributeError

/-- Normalization of a 200-status contracts payload (lines 380-403):
`data.get("Contracts") or []`, iterated and mapped. -/
def contractsFromData (data : JSON) : Except PyErr (List Contract) := do
  let cr0 ← pyGetE data "Contracts"
  let raw ← pyIter (pyOr cr0 (.arr []))
  raw.mapM contractItem

/-- The user-id resolution step of `fetch_contracts` (lines 365-367): an
explicit argument is used as-is; otherwise the identity lookup's
`user_id` value (`None` when identity came back empty). -/
def contracts_uid_step (net : Net) (user_id : Option Int) : Except PyErr JSON × List Request :=
  match user_id with
  | some u => (.ok (.num u), [])
  | none =>
    match fetch_identity net with
    | (.ok (some i), tr) => (.ok i.user_id, tr)
    | (.ok none, tr) => (.ok .null, tr)
    | (.error e, tr) => (.error e, tr)

/-- The contracts POST and payload normalization (lines 372-406). -/
def contracts_response (net : Net) (uidVal : JSON) : Except PyErr ContractsReport :=
  match net (contractsReq uidVal) with
  | .exn => .error .requestError
  | .resp status body =>
    if status ≠ 200 then .ok ⟨[], none⟩
    else
      match body with
      | none => .error .jsonError
      | some data =>
        match contractsFromData data with
        | .ok cs => .ok ⟨cs, cs.head?⟩
        | .error e => .error e

/-- The `try` block of `fetch_contracts` (lines 363-406), with its request
trace.  A `None` user id argument triggers the identity lookup; a falsy
resulting id short-circuits to the empty report before any contracts
request. -/
def fetch_contracts_body (net : Net) (user_id : Option Int) :
    Except PyErr ContractsReport × List Request :=
  match contracts_uid_step net user_id with
  | (.error e, tr) => (.error e, tr)
  | (.ok uidVal, tr) =>
    if truthy uidVal = false then (.ok ⟨[], none⟩, tr)
    else (contracts_response net uidVal, tr ++ [contractsReq uidVal])

/-- Model of `fetch_contracts` (lines 359-409): the `except` clause maps
any raised exception to the empty report. -/
def fetch_contracts (net : Net) (user_id : Option Int) :
    Except PyErr ContractsReport × List Request :=
  match fetch_contracts_body net user_id with
  | (.ok r, tr) => (.ok r, tr)
  | (.error _, tr) => (.ok ⟨[], none⟩, tr)

/-- Whether an embedded computation completed without raising. -/
def isOkE {α : Type} : Except PyErr α → Bool
  | .ok _ => true
  | .error _ => false

/-- Total version of the booking mapper, meaningful on dicts (the only
inputs on which the source call does not raise). -/
def normalizeTotal (j : JSON) : Booking :=
  match j with
  | .obj fields => normalize_booking_obj fields
  | _ => ⟨.null, none, none, .null, none⟩

/-- A remote whose successful (200, JSON) bodies only ever extract to
batches of dict items — the shape every real portal endpoint serves. -/
def NetDictItems (net : Net) : Prop :=
  ∀ req data L, net req = .resp 200 (some data) → extractItems data = some L →
    ∀ j ∈ L, j.isObj = true

/-- A remote on which every request fails at transport level. -/
def NetDown (net : Net) : Prop := ∀ req, net req = .exn

/-- The epoch interpretation claimed for integer inputs: milliseconds
above the magnitude threshold, seconds otherwise. -/
def epochInterp (v : Int) : Option PyDateTime :=
  if v > 10000000000 then fromtimestamp_ms v else fromtimestamp_sec v

/-- The summary selection as the claim words it: first truthy value among
`Title`, `ClassName`, `Name`, else the literal `"Booking"`. -/
def summaryChain (fields : List (String × JSON)) : JSON :=
  if truthy (jget fields "Title") then jget fields "Title"
  else if truthy (jget fields "ClassName") then jget fields "ClassName"
  else if truthy (jget fields "Name") then jget fields "Name"
  else .str "Booking"

/-- The `user_id` entry of a normalized identity result (`None` for the
empty-dict failure result). -/
def uidOfIdent : Option Identity → JSON
  | some i => i.user_id
  | none => .null

/-- The `user_id` value an identity lookup hands to `fetch_contracts`. -/
def identityUid (net : Net) : JSON :=
  match (fetch_identity net).1 with
  | .ok (some i) => i.user_id
  | _ => .null

/-- A concrete naive `utcnow` used by the scenario theorems. -/
def now0 : PyDateTime := ⟨2024, 5, 1, 10, 0, 0, 0, none⟩

/-- Client configuration with no override and no club id. -/
def cfg0 : ClientCfg := ⟨none, none⟩

/-- A remote answering every request with a 200 list body whose single
item is the integer 42 (not a dict). -/
def netBadItems : Net := fun _ => .resp 200 (some (.arr [.num 42]))

/-- URL of the ranged variant of the first built-in candidate under
`now0`. -/
def ranged1Url : String :=
  BASE_URL ++ rangedPath "/clientportal2/MyCalendar/MyCalendar/GetCalendar" now0 (now0.addDays 30)

/-- Plain URL of the first built-in candidate. -/
def plain1Url : String := BASE_URL ++ "/clientportal2/MyCalendar/MyCalendar/GetCalendar"

/-- Plain URL of the second built-in candidate. -/
def plain2Url : String := BASE_URL ++ "/clientportal2/Booking/GetUpcomingBookings"

/-- Plain URL of the third built-in candidate. -/
def plain3Url : String := BASE_URL ++ "/clientportal2/Booking/GetFutureBookings"

/-- A remote serving the batch `L` on the first candidate's ranged URL
and 404 everywhere else. -/
def netFirstRanged (L : List JSON) : Net := fun r =>
  if r.url = ranged1Url then .resp 200 (some (.arr L)) else .resp 404 none

/-- A remote serving the batch `L` on the third candidate's plain URL
and 404 everywhere else (the first two candidates fail). -/
def netThirdPlain (L : List JSON) : Net := fun r =>
  if r.url = plain3Url then .resp 200 (some (.arr L)) else .resp 404 none

/-- A sectioned payload that declares `FutureItems` before
`RecentItems`. -/
def sectionedX : JSON :=
  .obj [("FutureItems", .obj [("Items", .arr [.str "f"])]),
        ("RecentItems", .obj [("Items", .arr [.str "r"])])]

lemma truthy_pyOr (a b : JSON) : truthy (pyOr a b) = (truthy a || truthy b) := by
  unfold pyOr
  by_cases h : truthy a <;> simp [h]

lemma isObj_exists {j : JSON} (h : j.isObj = true) : ∃ fields, j = .obj fields := by
  cases j <;> simp [JSON.isObj] at h ⊢

lemma mapNormalize_of_isObj :
    ∀ L : List JSON, (∀ j ∈ L, j.isObj = true) →
      mapNormalize L = .ok (L.map normalizeTotal) := by
  intro L
  induction L with
  | nil => intro _; rfl
  | cons j rest ih =>
    intro h
    rcases isObj_exists (h j (List.mem_cons_self j rest)) with ⟨fields, rfl⟩
    have hrest := ih (fun x hx => h x (List.mem_cons_of_mem _ hx))
    simp [mapNormalize, normalize_booking, hrest, normalizeTotal, Bind.bind, Except.bind,
      Pure.pure, Except.pure]

lemma normalizeBatch_of_isObj {L : List JSON} (h : ∀ j ∈ L, j.isObj = true) :
    normalizeBatch L = .ok ((L.map normalizeTotal).filter (fun b => b.start.isSome)) := by
  unfold normalizeBatch
  rw [mapNormalize_of_isObj L h]
  rfl

lemma normalizeBatch_start {items : List JSON} {bs : List Booking}
    (heq : normalizeBatch items = .ok bs) : ∀ b ∈ bs, b.start.isSome = true := by
  unfold normalizeBatch at heq
  cases h : mapNormalize items with
  | error e => rw [h] at heq; exact absurd heq (by simp [Except.map])
  | ok l =>
    rw [h] at heq
    simp [Except.map] at heq
    intro b hb
    rw [← heq] at hb
    exact (List.mem_filter.mp hb).2

lemma try_endpoint_items {net : Net} {path : String} {hdrs : List (String × String)}
    {L : List JSON} (h : NetDictItems net) (he : try_endpoint net path hdrs = some L) :
    ∀ j ∈ L, j.isObj = true := by
  unfold try_endpoint at he
  split at he
  · exact absurd he (by simp)
  · rename_i st body hn
    split at he
    · exact absurd he (by simp)
    · rename_i hst
      split at he
      · exact absurd he (by simp)
      · rename_i data
        have hst2 : st = 200 := not_not.mp hst
        subst hst2
        exact h _ data L hn he

lemma try_endpoint_down {net : Net} (h : NetDown net) (path : String)
    (hdrs : List (String × String)) : try_endpoint net path hdrs = none := by
  unfold try_endpoint
  rw [h]

lemma plain_step_fst_cases (net : Net) (path : String) (hdrs : List (String × String))
    (recR : Except PyErr (List Booking) × List Request) (pre : List Request) :
    (plain_step net path hdrs recR pre).1 = recR.1 ∨
    ∃ items, try_endpoint net path hdrs = some items ∧
      (plain_step net path hdrs recR pre).1 = normalizeBatch items := by
  unfold plain_step
  cases hte : try_endpoint net path hdrs with
  | none => left; rfl
  | some items =>
    by_cases hi : items.isEmpty
    · left; simp [hi]
    · right; exact ⟨items, rfl, by simp [hi]⟩

lemma plain_step_snd (net : Net) (path : String) (hdrs : List (String × String))
    (recR : Except PyErr (List Booking) × List Request) (pre : List Request) :
    ∃ t, (plain_step net path hdrs recR pre).2 = pre ++ probeReq path hdrs :: t := by
  unfold plain_step
  cases hte : try_endpoint net path hdrs with
  | none => exact ⟨recR.2, rfl⟩
  | some items =>
    by_cases hi : items.isEmpty
    · exact ⟨recR.2, by simp [hi]⟩
    · exact ⟨[], by simp [hi]⟩

lemma bookings_cons (net : Net) (cfg : ClientCfg) (now hor : PyDateTime)
    (path : String) (rest : List String) :
    bookings_from_paths net cfg now hor (path :: rest) =
      (let recResult := bookings_from_paths net cfg now hor rest
       let extraHeaders :=
         if strIn "/MyCalendar/MyCalendar/GetCalendar" path then
           [("X-Hash", bookingsXHash cfg now)]
         else []
       if calendarish path then
         match try_endpoint net (rangedPath path now hor) extraHeaders with
         | some items =>
           if items.isEmpty then
             plain_step net path extraHeaders recResult [probeReq (rangedPath path now hor) extraHeaders]
           else (normalizeBatch items, [probeReq (rangedPath path now hor) extraHeaders])
         | none =>
           plain_step net path extraHeaders recResult [probeReq (rangedPath path now hor) extraHeaders]
       else plain_step net path extraHeaders recResult []) := rfl

lemma bookings_fst_cases (net : Net) (cfg : ClientCfg) (now hor : PyDateTime) :
    ∀ paths : List String,
      (bookings_from_paths net cfg now hor paths).1 = .ok [] ∨
      ∃ p2 h2 items, try_endpoint net p2 h2 = some items ∧
        (bookings_from_paths net cfg now hor paths).1 = normalizeBatch items := by
  intro paths
  induction paths with
  | nil => left; rfl
  | cons path rest ih =>
    rw [bookings_cons]
    dsimp only
    set hdrs := (if strIn "/MyCalendar/MyCalendar/GetCalendar" path then
      [("X-Hash", bookingsXHash cfg now)] else []) with hh
    have hplain : ∀ pre,
        (plain_step net path hdrs (bookings_from_paths net cfg now hor rest) pre).1 = .ok [] ∨
        ∃ p2 h2 items, try_endpoint net p2 h2 = some items ∧
          (plain_step net path hdrs (bookings_from_paths net cfg now hor rest) pre).1 =
            normalizeBatch items := by
      intro pre
      rcases plain_step_fst_cases net path hdrs (bookings_from_paths net cfg now hor rest) pre with
        hfst | ⟨items, hte2, hfst⟩
      · rw [hfst]; exact ih
      · right; exact ⟨path, hdrs, items, hte2, hfst⟩
    by_cases hc : calendarish path
    · rw [if_pos hc]
      cases hte : try_endpoint net (rangedPath path now hor) hdrs with
      | some items =>
        dsimp only
        by_cases hi : items.isEmpty
        · rw [if_pos hi]; exact hplain _
        · rw [if_neg hi]
          right
          exact ⟨rangedPath path now hor, hdrs, items, hte, rfl⟩
      | none => exact hplain _
    · rw [if_neg hc]; exact hplain _

lemma bookings_snd_cons_head (net : Net) (cfg : ClientCfg) (now hor : PyDateTime)
    (path : String) (rest : List String) :
    ((bookings_from_paths net cfg now hor (path :: rest)).2).head? =
      some (probeReq (if calendarish path then rangedPath path now hor else path)
        (if strIn "/MyCalendar/MyCalendar/GetCalendar" path then
          [("X-Hash", bookingsXHash cfg now)] else [])) := by
  rw [bookings_cons]
  dsimp only
  set hdrs := (if strIn "/MyCalendar/MyCalendar/GetCalendar" path then
    [("X-Hash", bookingsXHash cfg now)] else []) with hh
  by_cases hc : calendarish path
  · rw [if_pos hc, if_pos hc]
    cases hte : try_endpoint net (rangedPath path now hor) hdrs with
    | some items =>
      dsimp only
      by_cases hi : items.isEmpty
      · rw [if_pos hi]
        rcases plain_step_snd net path hdrs (bookings_from_paths net cfg now hor rest)
          [probeReq (rangedPath path now hor) hdrs] with ⟨t, ht⟩
        rw [ht]; rfl
      · rw [if_neg hi]; rfl
    | none =>
      rcases plain_step_snd net path hdrs (bookings_from_paths net cfg now hor rest)
        [probeReq (rangedPath path now hor) hdrs] with ⟨t, ht⟩
      rw [ht]; rfl
  · rw [if_neg hc, if_neg hc]
    rcases plain_step_snd net path hdrs (bookings_from_paths net cfg now hor rest) [] with ⟨t, ht⟩
    rw [ht]; rfl

lemma bookings_isOk {net : Net} (h : NetDictItems net) (cfg : ClientCfg)
    (now hor : PyDateTime) (paths : List String) :
    isOkE (bookings_from_paths net cfg now hor paths).1 = true := by
  rcases bookings_fst_cases net cfg now hor paths with heq | ⟨p2, h2, items, hte, heq⟩
  · rw [heq]; rfl
  · rw [heq, normalizeBatch_of_isObj (try_endpoint_items h hte)]; rfl

lemma bookings_ok_start {net : Net} {cfg : ClientCfg} {now hor : PyDateTime}
    {paths : List String} {bs : List Booking}
    (heq : (bookings_from_paths net cfg now hor paths).1 = .ok bs) :
    ∀ b ∈ bs, b.start.isSome = true := by
  rcases bookings_fst_cases net cfg now hor paths with h0 | ⟨p2, h2, items, hte, h0⟩
  · rw [h0] at heq
    injection heq with hbs
    intro b hb
    rw [← hbs] at hb
    cases hb
  · rw [h0] at heq
    exact normalizeBatch_start heq

lemma bookings_down {net : Net} (h : NetDown net) (cfg : ClientCfg)
    (now hor : PyDateTime) (paths : List String) :
    (bookings_from_paths net cfg now hor paths).1 = .ok [] := by
  rcases bookings_fst_cases net cfg now hor paths with h0 | ⟨p2, h2, items, hte, h0⟩
  · exact h0
  · rw [try_endpoint_down h] at hte
    exact absurd hte (by simp)

lemma occFold_total :
    ∀ (raw : List JSON) (l : List ClubEntry) (t : Int),
      occFold raw = .ok (l, t) → t = (l.map (fun e => e.members)).sum := by
  intro raw
  induction raw with
  | nil =>
    intro l t h
    injection h with h1
    injection h1 with hl ht
    rw [← hl, ← ht]
    rfl
  | cons c rest ih =>
    intro l t h
    unfold occFold at h
    cases he : occEntry c with
    | error e => rw [he] at h; exact absurd h (by simp [Bind.bind, Except.bind])
    | ok eEntry =>
      rw [he] at h
      cases hf : occFold rest with
      | error e2 => rw [hf] at h; exact absurd h (by simp [Bind.bind, Except.bind])
      | ok pr =>
        rcases pr with ⟨l2, t2⟩
        rw [hf] at h
        simp only [Bind.bind, Except.bind, Pure.pure, Except.pure] at h
        injection h with h1
        injection h1 with hl ht
        rw [← hl, ← ht]
        have h2 := ih l2 t2 hf
        simp [h2]
        omega

lemma occ_body_total {net : Net} {r : OccReport}
    (h : fetch_members_in_clubs_body net = .ok r) :
    r.total = (r.clubs.map (fun e => e.members)).sum := by
  unfold fetch_members_in_clubs_body at h
  split at h
  · exact absurd h (by simp)
  · split at h
    · injection h with h1
      rw [← h1]
      rfl
    · split at h
      · exact absurd h (by simp)
      · rename_i data hd
        cases hf : occFold (clubsRawFrom data) with
        | error e => rw [hf] at h; exact absurd h (by simp [Bind.bind, Except.bind])
        | ok pr =>
          rcases pr with ⟨cl, tt⟩
          rw [hf] at h
          simp only [Bind.bind, Except.bind, Pure.pure, Except.pure] at h
          injection h with h1
          rw [← h1]
          exact occFold_total _ _ _ hf

/-- Failure of the occupancy request from the client's point of view:
transport error, non-200 status, or an unparseable body. -/
def occFailed (net : Net) : Prop :=
  match net occupancyReq with
  | .exn => True
  | .resp st body => st ≠ 200 ∨ body = none

lemma occ_failed_empty {net : Net} (h : occFailed net) :
    fetch_members_in_clubs net = .ok ⟨[], 0⟩ := by
  unfold fetch_members_in_clubs fetch_members_in_clubs_body
  unfold occFailed at h
  cases hn : net occupancyReq with
  | exn => rfl
  | resp st body =>
    rw [hn] at h
    dsimp only at h ⊢
    rcases h with hst | hbody
    · rw [if_pos hst]
    · subst hbody
      by_cases hst : st ≠ 200
      · rw [if_pos hst]
      · rw [if_neg hst]

lemma fetch_identity_snd (net : Net) : (fetch_identity net).2 = [identityReq] := rfl

lemma fetch_identity_fst_ok (net : Net) : ∃ oi, (fetch_identity net).1 = .ok oi := by
  unfold fetch_identity
  cases fetch_identity_body net with
  | ok r => exact ⟨r, rfl⟩
  | error e => exact ⟨none, rfl⟩

lemma contracts_response_active {net : Net} {uidVal : JSON} {rep : ContractsReport}
    (h : contracts_response net uidVal = .ok rep) :
    rep.active = rep.contracts.head? := by
  unfold contracts_response at h
  split at h
  · exact absurd h (by simp)
  · split at h
    · injection h with h1
      rw [← h1]
      rfl
    · split at h
      · exact absurd h (by simp)
      · split at h
        · injection h with h1
          rw [← h1]
        · exact absurd h (by simp)

lemma contracts_body_fst_active {net : Net} {uid : Option Int} {x : ContractsReport}
    {tr : List Request} (hb : fetch_contracts_body net uid = (.ok x, tr)) :
    x.active = x.contracts.head? := by
  unfold fetch_contracts_body at hb
  split at hb
  · injection hb with h1 h2
    exact absurd h1 (by simp)
  · split at hb
    · injection hb with h1 h2
      injection h1 with h3
      rw [← h3]
      rfl
    · injection hb with h1 h2
      exact contracts_response_active h1

lemma members_isOk (net : Net) : isOkE (fetch_members_in_clubs net) = true := by
  unfold fetch_members_in_clubs
  cases fetch_members_in_clubs_body net <;> rfl

lemma identity_isOk (net : Net) : isOkE (fetch_identity net).1 = true := by
  unfold fetch_identity
  cases fetch_identity_body net <;> rfl

lemma profile_isOk (net : Net) (uid : Option Int) : isOkE (fetch_profile net uid) = true := by
  unfold fetch_profile
  cases fetch_profile_body net uid <;> rfl

lemma contracts_isOk (net : Net) (uid : Option Int) :
    isOkE (fetch_contracts net uid).1 = true := by
  unfold fetch_contracts
  rcases hb : fetch_contracts_body net uid with ⟨r, tr⟩
  cases r <;> rfl

lemma products_isOk (net : Net) : isOkE (fetch_products_for_user net) = true := by
  unfold fetch_products_for_user
  cases fetch_products_for_user_body net <;> rfl

lemma fub_isOk {net : Net} (h : NetDictItems net) (cfg : ClientCfg) (now : PyDateTime) :
    isOkE (fetch_upcoming_bookings cfg now net).1 = true :=
  bookings_isOk h cfg now (now.addDays 30) _

lemma down_members {net : Net} (h : NetDown net) :
    fetch_members_in_clubs net = .ok ⟨[], 0⟩ :=
  occ_failed_empty (by unfold occFailed; rw [h occupancyReq]; trivial)

lemma down_identity {net : Net} (h : NetDown net) : (fetch_identity net).1 = .ok none := by
  unfold fetch_identity fetch_identity_body
  rw [h identityReq]

lemma down_products {net : Net} (h : NetDown net) :
    fetch_products_for_user net = .ok none := by
  unfold fetch_products_for_user fetch_products_for_user_body
  rw [h productsReq]

lemma down_profile {net : Net} (h : NetDown net) (uid : Option Int) :
    fetch_profile net uid = .ok none := by
  unfold fetch_profile fetch_profile_body
  cases uid with
  | none => rw [h profileReqNoId]
  | some u =>
    dsimp only
    by_cases hu : u ≠ 0
    · rw [if_pos hu, h (profileReqWithId u)]
    · rw [if_neg hu, h profileReqNoId]

lemma down_contracts {net : Net} (h : NetDown net) (uid : Option Int) :
    (fetch_contracts net uid).1 = .ok ⟨[], none⟩ := by
  unfold fetch_contracts fetch_contracts_body contracts_uid_step
  cases uid with
  | none =>
    have hid : fetch_identity net = (.ok none, [identityReq]) := by
      unfold fetch_identity fetch_identity_body
      rw [h identityReq]
    rw [hid]
    rfl
  | some u =>
    dsimp only
    by_cases hu : truthy (.num u) = false
    · rw [if_pos hu]
    · rw [if_neg hu]
      unfold contracts_response
      rw [h (contractsReq (.num u))]

lemma down_fub {net : Net} (h : NetDown net) (cfg : ClientCfg) (now : PyDateTime) :
    (fetch_upcoming_bookings cfg now net).1 = .ok [] := by
  unfold fetch_upcoming_bookings
  exact bookings_down h cfg now (now.addDays 30) _

/-- A remote on which every request fails with a transport error. -/
def netDownConst : Net := fun _ => .exn

lemma fromtimestampUtc_tz {s : Int} {mic : Nat} {dt : PyDateTime}
    (h : fromtimestampUtc s mic = some dt) : dt.tz = some 0 := by
  unfold fromtimestampUtc at h
  dsimp only at h
  rcases hc : civilFromDays (s.fdiv 86400) with ⟨y, m, d⟩
  rw [hc] at h
  split at h
  · injection h with h1
    rw [← h1]
  · exact absurd h (by simp)

/-- Claim C2: for every occupancy payload the report's `total` equals the
sum of the per-club `members` counts (unparseable counts already folded
in as zero), and any transport error, non-200 status or JSON-decode
failure yields the zeroed report `{clubs: [], total: 0}`. -/
theorem C2_occupancy_total_invariant :
    (∀ (net : Net) (rep : OccReport), fetch_members_in_clubs net = .ok rep →
      rep.total = (rep.clubs.map (fun e => e.members)).sum) ∧
    (∀ net : Net, occFailed net → fetch_members_in_clubs net = .ok ⟨[], 0⟩) := by
  constructor
  · intro net rep h
    unfold fetch_members_in_clubs at h
    cases hb : fetch_members_in_clubs_body net with
    | ok r =>
      rw [hb] at h
      dsimp only at h
      injection h with h1
      rw [← h1]
      exact occ_body_total hb
    | error e =>
      rw [hb] at h
      dsimp only at h
      injection h with h1
      rw [← h1]
      rfl
  · intro net h
    exact occ_failed_empty h

/-- Witness for C2 at a fully failing remote. -/
theorem C2_occupancy_total_invariant_witness :
    (⟨[], 0⟩ : OccReport).total = ((⟨[], 0⟩ : OccReport).clubs.map (fun e => e.members)).sum ∧
    fetch_members_in_clubs netDownConst = .ok ⟨[], 0⟩ :=
  ⟨C2_occupancy_total_invariant.1 netDownConst ⟨[], 0⟩ rfl,
   C2_occupancy_total_invariant.2 netDownConst trivial⟩

/-- Counterexample to claim C4 as stated: the integer 0 is epoch-like and
below the millisecond threshold, so the claim mandates the epoch-seconds
interpretation 1970-01-01T00:00:00Z, but the parser's falsy-value guard
returns `none` for 0. -/
theorem C4_epoch_zero_counterexample :
    parse_dt (.num 0) = none ∧
    epochInterp 0 = some ⟨1970, 1, 1, 0, 0, 0, 0, some 0⟩ ∧
    parse_dt (.num 0) ≠ epochInterp 0 := by decide

/-- Claim C4 as amended: for every nonzero (truthy) integer value whose
decimal string form is rejected by the ISO attempt (which runs first),
the parser applies the epoch interpretation — milliseconds above
10,000,000,000, seconds otherwise — and any instant it returns is
timezone-aware UTC. -/
theorem C4_epoch_heuristic_amended :
    ∀ v : Int, v ≠ 0 → isoParse (pyReplaceZ (pyStr (.num v))) = none →
      parse_dt (.num v) = epochInterp v ∧
      ∀ dt, epochInterp v = some dt → dt.tz = some 0 := by
  intro v hv hiso
  have ht : truthy (.num v) = true := by simp [truthy, hv]
  constructor
  · unfold parse_dt
    rw [if_neg (by simp [ht]), hiso]
    rfl
  · intro dt h
    unfold epochInterp at h
    split at h
    · exact fromtimestampUtc_tz h
    · exact fromtimestampUtc_tz h

/-- Witness for C4 at the epoch second 1714557600 (2024-05-01T10:00:00Z). -/
theorem C4_epoch_heuristic_amended_witness :
    parse_dt (.num 1714557600) = epochInterp 1714557600 ∧
    (⟨2024, 5, 1, 10, 0, 0, 0, some 0⟩ : PyDateTime).tz = some 0 :=
  ⟨(C4_epoch_heuristic_amended 1714557600 (by decide) (by decide)).1,
   (C4_epoch_heuristic_amended 1714557600 (by decide) (by decide)).2
     ⟨2024, 5, 1, 10, 0, 0, 0, some 0⟩ (by decide)⟩

/-- Counterexample to claim C5 as stated: a sectioned payload declaring
`FutureItems` before `RecentItems` is normalized in the fixed
Recent/Future/Past order, not in section-declaration order. -/
theorem C5_section_order_counterexample :
    extractItems sectionedX = some [.str "r", .str "f"] ∧
    extractItemsClaim sectionedX = some [.str "f", .str "r"] ∧
    extractItems sectionedX ≠ extractItemsClaim sectionedX := by
  refine ⟨rfl, rfl, ?_⟩
  intro h
  rw [show extractItems sectionedX = some [.str "r", .str "f"] from rfl,
      show extractItemsClaim sectionedX = some [.str "f", .str "r"] from rfl] at h
  injection h with h1
  injection h1 with h2 h3
  injection h2 with h4
  exact absurd h4 (by decide)

/-- Claim C5 as amended: the five-way decision order holds with step (3)
reading the fixed section keys `RecentItems`, `FutureItems`, `PastItems`
in that fixed order (and applying only when the concatenation is
non-empty). -/
theorem C5_shape_normalizer_amended :
    ∀ j : JSON, extractItems j = extractItemsAmended j := by
  intro j
  cases j with
  | obj fields =>
    have hap : (["RecentItems", "FutureItems", "PastItems"].map (sectionItems fields)).flatten =
        sectionItems fields "RecentItems" ++ sectionItems fields "FutureItems" ++
          sectionItems fields "PastItems" := by
      simp [List.append_assoc]
    unfold extractItems extractItemsAmended
    dsimp only
    rw [hap]
  | null => rfl
  | bool b => rfl
  | num n => rfl
  | str s => rfl
  | arr items => rfl

/-- Claim C8: the contracts report's `active` is always the positional
head of its `contracts` sequence — first element when non-empty, absent
when empty — with no date-based selection. -/
theorem C8_active_positional :
    ∀ (net : Net) (uid : Option Int) (rep : ContractsReport),
      (fetch_contracts net uid).1 = .ok rep → rep.active = rep.contracts.head? := by
  intro net uid rep h
  unfold fetch_contracts at h
  rcases hb : fetch_contracts_body net uid with ⟨r, tr⟩
  rw [hb] at h
  cases r with
  | error e =>
    dsimp only at h
    injection h with h1
    rw [← h1]
    rfl
  | ok x =>
    dsimp only at h
    injection h with h1
    rw [← h1]
    exact contracts_body_fst_active hb

/-- Witness for C8 at a fully failing remote. -/
theorem C8_active_positional_witness :
    (⟨[], none⟩ : ContractsReport).active = (⟨[], none⟩ : ContractsReport).contracts.head? :=
  C8_active_positional netDownConst none ⟨[], none⟩ rfl

/-- Claim C9: each falsy input — `None`, the integer 0, the empty string,
`False` — makes the temporal parser return `none`; in particular epoch 0
does not become 1970-01-01T00:00:00Z. -/
theorem C9_falsy_parse_none :
    parse_dt .null = none ∧ parse_dt (.num 0) = none ∧
    parse_dt (.str "") = none ∧ parse_dt (.bool false) = none := by decide

/-- Counterexample to claim C10 as stated: a truthy non-string `Title`
(here the integer 5) becomes the summary unchanged, so the summary is not
always a string. -/
theorem C10_summary_nonstring_counterexample :
    (normalize_booking_obj [("Title", .num 5)]).summary = .num 5 ∧
    JSON.isStr (normalize_booking_obj [("Title", .num 5)]).summary = false :=
  ⟨rfl, rfl⟩

/-- Claim C10 as amended: the summary is always present and truthy — the
first truthy value among `Title`, `ClassName`, `Name`, else the literal
string `"Booking"` — and whenever it is a string it is non-empty. -/
theorem C10_summary_amended :
    ∀ fields : List (String × JSON),
      truthy (normalize_booking_obj fields).summary = true ∧
      (normalize_booking_obj fields).summary = summaryChain fields ∧
      (∀ s, (normalize_booking_obj fields).summary = .str s → s ≠ "") := by
  intro fields
  have hsum : (normalize_booking_obj fields).summary =
      pyOr (jget fields "Title") (pyOr (jget fields "ClassName")
        (pyOr (jget fields "Name") (.str "Booking"))) := rfl
  have hbk : truthy (.str "Booking") = true := by decide
  have h1 : truthy (normalize_booking_obj fields).summary = true := by
    rw [hsum, truthy_pyOr, truthy_pyOr, truthy_pyOr, hbk]
    simp
  refine ⟨h1, ?_, ?_⟩
  · rw [hsum]
    unfold summaryChain pyOr
    by_cases h2 : truthy (jget fields "Title") <;>
      by_cases h3 : truthy (jget fields "ClassName") <;>
        by_cases h4 : truthy (jget fields "Name") <;>
          simp [h2, h3, h4]
  · intro s hs
    rw [hs] at h1
    intro heq
    subst heq
    exact absurd h1 (by decide)

/-- Witness for C10 at a booking whose `Title` is the string "Yoga". -/
theorem C10_summary_amended_witness :
    truthy (normalize_booking_obj [("Title", .str "Yoga")]).summary = true ∧
    ("Yoga" : String) ≠ "" :=
  ⟨(C10_summary_amended [("Title", .str "Yoga")]).1,
   (C10_summary_amended [("Title", .str "Yoga")]).2.2 "Yoga" rfl⟩

/-- Counterexample to claim C1 as stated: a 200 response whose JSON list
contains the non-dict item 42 makes `fetch_upcoming_bookings` raise
`AttributeError` to the caller (the normalization calls sit outside the
`try` that guards the HTTP layer). -/
theorem C1_raises_counterexample :
    (fetch_upcoming_bookings cfg0 now0 netBadItems).1 = .error .attributeError ∧
    isOkE (fetch_upcoming_bookings cfg0 now0 netBadItems).1 = false := ⟨rfl, rfl⟩

/-- Claim C1 as amended: `fetch_members_in_clubs`, `fetch_identity`,
`fetch_profile`, `fetch_contracts` and `fetch_products_for_user` never
raise for any remote response; `fetch_upcoming_bookings` never raises
provided every batch extracted from a successful (200, JSON) response
consists of dict items; and on total remote failure every operation
returns its empty/zeroed result. -/
theorem C1_no_raise_amended :
    (∀ net : Net, isOkE (fetch_members_in_clubs net) = true) ∧
    (∀ net : Net, isOkE (fetch_identity net).1 = true) ∧
    (∀ (net : Net) (uid : Option Int), isOkE (fetch_profile net uid) = true) ∧
    (∀ (net : Net) (uid : Option Int), isOkE (fetch_contracts net uid).1 = true) ∧
    (∀ net : Net, isOkE (fetch_products_for_user net) = true) ∧
    (∀ (net : Net) (cfg : ClientCfg) (now : PyDateTime), NetDictItems net →
      isOkE (fetch_upcoming_bookings cfg now net).1 = true) ∧
    (∀ (net : Net) (cfg : ClientCfg) (now : PyDateTime) (uid : Option Int), NetDown net →
      fetch_members_in_clubs net = .ok ⟨[], 0⟩ ∧
      (fetch_identity net).1 = .ok none ∧
      fetch_profile net uid = .ok none ∧
      (fetch_contracts net uid).1 = .ok ⟨[], none⟩ ∧
      fetch_products_for_user net = .ok none ∧
      (fetch_upcoming_bookings cfg now net).1 = .ok []) :=
  ⟨members_isOk, identity_isOk, profile_isOk, contracts_isOk, products_isOk,
   fun _net cfg now h => fub_isOk h cfg now,
   fun _net cfg now uid h =>
     ⟨down_members h, down_identity h, down_profile h uid, down_contracts h uid,
      down_products h, down_fub h cfg now⟩⟩

/-- Witness for C1 at a fully failing remote. -/
theorem C1_no_raise_amended_witness :
    isOkE (fetch_members_in_clubs netDownConst) = true ∧
    isOkE (fetch_identity netDownConst).1 = true ∧
    isOkE (fetch_profile netDownConst none) = true ∧
    isOkE (fetch_contracts netDownConst none).1 = true ∧
    isOkE (fetch_products_for_user netDownConst) = true ∧
    isOkE (fetch_upcoming_bookings cfg0 now0 netDownConst).1 = true ∧
    (fetch_upcoming_bookings cfg0 now0 netDownConst).1 = .ok [] :=
  ⟨C1_no_raise_amended.1 netDownConst,
   C1_no_raise_amended.2.1 netDownConst,
   C1_no_raise_amended.2.2.1 netDownConst none,
   C1_no_raise_amended.2.2.2.1 netDownConst none,
   C1_no_raise_amended.2.2.2.2.1 netDownConst,
   C1_no_raise_amended.2.2.2.2.2.1 netDownConst cfg0 now0
     (fun _req _data _L h => HttpOutcome.noConfusion h),
   (C1_no_raise_amended.2.2.2.2.2.2 netDownConst cfg0 now0 none
     (fun _req => rfl)).2.2.2.2.2⟩

/-- A raw booking that carries a parseable start instant. -/
def bookingWithStart : JSON :=
  .obj [("Title", .str "Yoga"), ("StartTime", .str "2024-06-01T09:00:00Z")]

/-- A raw booking with no start candidate at all. -/
def bookingNoStart : JSON := .obj [("Title", .str "Spin")]

/-- Claim C3: every booking returned by `fetch_upcoming_bookings` has a
resolved start instant, and on a batch of dict items the output is
exactly the normalizations of the start-resolvable items, in order (the
unresolvable ones dropped, the rest kept). -/
theorem C3_bookings_start_required :
    (∀ (cfg : ClientCfg) (now : PyDateTime) (net : Net) (bs : List Booking),
      (fetch_upcoming_bookings cfg now net).1 = .ok bs →
      ∀ b ∈ bs, b.start.isSome = true) ∧
    (∀ (a : JSON) (as : List JSON), (∀ j ∈ a :: as, j.isObj = true) →
      (fetch_upcoming_bookings cfg0 now0 (netFirstRanged (a :: as))).1 =
        .ok (((a :: as).map normalizeTotal).filter (fun b => b.start.isSome))) := by
  constructor
  · intro cfg now net bs h
    exact bookings_ok_start h
  · intro a as h
    have hstep : (fetch_upcoming_bookings cfg0 now0 (netFirstRanged (a :: as))).1 =
        normalizeBatch (a :: as) := rfl
    rw [hstep, normalizeBatch_of_isObj h]

/-- Witness for C3 on a two-item batch: the startless item is dropped and
the start-bearing one is returned. -/
theorem C3_bookings_start_required_witness :
    (normalizeTotal bookingWithStart).start.isSome = true ∧
    (fetch_upcoming_bookings cfg0 now0 (netFirstRanged [bookingWithStart, bookingNoStart])).1 =
      .ok (([bookingWithStart, bookingNoStart].map normalizeTotal).filter
        (fun b => b.start.isSome)) :=
  ⟨C3_bookings_start_required.1 cfg0 now0 (netFirstRanged [bookingWithStart, bookingNoStart])
     (([bookingWithStart, bookingNoStart].map normalizeTotal).filter (fun b => b.start.isSome))
     (C3_bookings_start_required.2 bookingWithStart [bookingNoStart] (by decide))
     (normalizeTotal bookingWithStart) (List.mem_singleton_self _),
   C3_bookings_start_required.2 bookingWithStart [bookingNoStart] (by decide)⟩

/-- Claim C6: when only the third built-in candidate answers 200 with a
usable list body, the result is exactly that response's normalized items;
the issued requests are the first candidate's ranged and plain variants
and the second and third candidates' plain URLs, each exactly once (no
URL repeats); and a truthy caller-supplied override is always probed
first, ahead of the built-in candidates. -/
theorem C6_candidate_fallback :
    (∀ (a : JSON) (as : List JSON), (∀ j ∈ a :: as, j.isObj = true) →
      (fetch_upcoming_bookings cfg0 now0 (netThirdPlain (a :: as))).1 =
        .ok (((a :: as).map normalizeTotal).filter (fun b => b.start.isSome))) ∧
    (∀ (a : JSON) (as : List JSON),
      ((fetch_upcoming_bookings cfg0 now0 (netThirdPlain (a :: as))).2.map (fun r => r.url)) =
        [ranged1Url, plain1Url, plain2Url, plain3Url] ∧
      ((fetch_upcoming_bookings cfg0 now0 (netThirdPlain (a :: as))).2.map
        (fun r => r.url)).Nodup) ∧
    (∀ (p : String) (cid : Option Int) (now : PyDateTime) (net : Net), p ≠ "" →
      ((fetch_upcoming_bookings ⟨some p, cid⟩ now net).2.map (fun r => r.url)).head? =
        some (BASE_URL ++
          (if calendarish p then rangedPath p now (now.addDays 30) else p))) := by
  refine ⟨?_, ?_, ?_⟩
  · intro a as h
    have hstep : (fetch_upcoming_bookings cfg0 now0 (netThirdPlain (a :: as))).1 =
        normalizeBatch (a :: as) := rfl
    rw [hstep, normalizeBatch_of_isObj h]
  · intro a as
    refine ⟨rfl, ?_⟩
    rw [show ((fetch_upcoming_bookings cfg0 now0 (netThirdPlain (a :: as))).2.map
      (fun r => r.url)) = [ranged1Url, plain1Url, plain2Url, plain3Url] from rfl]
    decide
  · intro p cid now net hp
    have hpE : p.isEmpty = false := by
      cases hE : p.isEmpty
      · rfl
      · exact absurd ((String.isEmpty_iff p).mp hE) hp
    unfold fetch_upcoming_bookings
    rw [show (⟨some p, cid⟩ : ClientCfg).bookings_path_override = some p from rfl]
    simp only [overridePaths]
    rw [hpE]
    rw [show ((if false = true then [] else [p]) ++ BOOKINGS_CANDIDATE_PATHS) =
      p :: BOOKINGS_CANDIDATE_PATHS from rfl]
    rw [List.head?_map, bookings_snd_cons_head]
    rfl

/-- Witness for C6: a one-item batch on the third candidate, and an
override probed first on a failing remote. -/
theorem C6_candidate_fallback_witness :
    (fetch_upcoming_bookings cfg0 now0 (netThirdPlain [bookingWithStart])).1 =
      .ok (([bookingWithStart].map normalizeTotal).filter (fun b => b.start.isSome)) ∧
    ((fetch_upcoming_bookings cfg0 now0 (netThirdPlain [bookingWithStart])).2.map
      (fun r => r.url)) = [ranged1Url, plain1Url, plain2Url, plain3Url] ∧
    ((fetch_upcoming_bookings ⟨some "/clientportal2/MyBookings", none⟩ now0 netDownConst).2.map
      (fun r => r.url)).head? =
      some (BASE_URL ++ (if calendarish "/clientportal2/MyBookings" then
        rangedPath "/clientportal2/MyBookings" now0 (now0.addDays 30)
      else "/clientportal2/MyBookings")) :=
  ⟨C6_candidate_fallback.1 bookingWithStart [] (by decide),
   (C6_candidate_fallback.2.1 bookingWithStart []).1,
   C6_candidate_fallback.2.2 "/clientportal2/MyBookings" none now0 netDownConst (by decide)⟩

/-- Claim C7: with no user-id argument and an identity lookup yielding a
falsy user id, `fetch_contracts` returns the empty report as a normal
result and never issues the contracts request. -/
theorem C7_contracts_missing_user :
    ∀ net : Net, truthy (identityUid net) = false →
      (fetch_contracts net none).1 = .ok ⟨[], none⟩ ∧
      ∀ r ∈ (fetch_contracts net none).2, r.url ≠ BASE_URL ++ CONTRACTS_PATH := by
  intro net h
  rcases fetch_identity_fst_ok net with ⟨oi, hoi⟩
  have hpair : fetch_identity net = (.ok oi, [identityReq]) := by
    have h2 := fetch_identity_snd net
    rcases hfi : fetch_identity net with ⟨r, tr⟩
    rw [hfi] at hoi h2
    dsimp only at hoi h2
    rw [hoi, h2]
  have huid : truthy (uidOfIdent oi) = false := by
    unfold identityUid at h
    rw [hoi] at h
    cases oi with
    | some i => exact h
    | none => rfl
  have hstep : contracts_uid_step net none = (.ok (uidOfIdent oi), [identityReq]) := by
    unfold contracts_uid_step
    rw [hpair]
    cases oi <;> rfl
  unfold fetch_contracts fetch_contracts_body
  rw [hstep]
  dsimp only
  rw [if_pos huid]
  constructor
  · rfl
  · intro r hr
    have hre : r = identityReq := List.mem_singleton.mp hr
    rw [hre]
    decide

/-- Witness for C7 at a fully failing remote (identity comes back empty,
so the id is falsy). -/
theorem C7_contracts_missing_user_witness :
    (fetch_contracts netDownConst none).1 = .ok ⟨[], none⟩ ∧
    identityReq.url ≠ BASE_URL ++ CONTRACTS_PATH :=
  ⟨(C7_contracts_missing_user netDownConst rfl).1,
   (C7_contracts_missing_user netDownConst rfl).2 identityReq (List.mem_singleton_self _)⟩

end NrgGyms
